import Mathlib

/-!
Shallow embedding of the `reconnect` Go package (`reconnect.go`): a resilient
WebSocket connection manager (`ReConn`) that wraps a duplex message socket,
transparently reconnecting on read/write failure while enforcing a minimum
interval between dial attempts.

Modelling conventions:
* `Conn` is the type of live socket handles (`WsConnection` values), `Resp`
  the type of diagnostic dial responses (`*http.Response`), `Err` the type of
  raw Go `error` values produced by collaborators, `L` the type of injected
  custom loggers.
* Time is an explicit `Nat` clock.  `connect`'s debounce
  `<-time.After(r.nextReconnectTime.Sub(time.Now()))` makes the dial happen at
  `max now nextReconnectTime` (a negative duration fires immediately);
  `env.elapsed` is the time the dial/subscribe phase takes, so the deferred
  `time.Now()` in `connect`'s error hook reads `dialTime + elapsed`.
* Collaborator behaviour is passed in as oracles: what the dialer returns this
  attempt (`ConnectEnv.dial`), what `conn.ReadMessage` / `conn.WriteMessage` /
  `conn.Close` return on a given handle (`readOf` / `writeOf` / `closeOf`).
* Go `nil` interface/pointer values become `none`; a nil dialer result carries
  `conn := none`.  The multiple assignment
  `r.conn, r.errDialResp, err = r.newDialer().Dial(...)` overwrites both
  fields unconditionally, and the embedding does the same.
* Errors are structured: `errors.Wrap(err, "dial error")` becomes
  `RErr.dialError err`, `errors.Errorf("original error: ..., reconnect
  error: ...")` becomes `RErr.composed`, the sentinel values `ErrNotDialed`,
  `ErrAlreadyDialed`, `ErrNotConnected` become the matching constructors.
* Logging (`Logger.Debug/Info/Error`) does not touch manager state and is not
  traced; the `log` field itself is modelled because the setters mutate it.
* Each operation returns a record holding the updated manager state, its Go
  return values, and bookkeeping the spec talks about: whether the dialer was
  invoked (`dialerInvoked`), when the dial attempt started (`dialTime`), and
  which handles had `Close()` called on them (`closedConns`).
-/

namespace Reconnect

/-- Message payloads and diagnostic response bodies, as byte lists. -/
abbrev Bytes := List Nat

/-- The manager's logger: the default `NoopLogger{}` or an injected custom
logger (`SetLogger` installs `noop` when passed a nil logger). -/
inductive Logger (L : Type) where
  | noop
  | custom (l : L)
deriving DecidableEq

/-- Structured view of the `error` values the package returns: the three
sentinels, a raw collaborator error surfaced unchanged, the two
`errors.Wrap` shapes produced inside `connect`, and the
`errors.Errorf("original error: '%s', reconnect error: '%s'", ...)`
composition built by `ReadMessage`/`WriteMessage`. -/
inductive RErr (Err : Type) where
  | notDialed
  | alreadyDialed
  | notConnected
  | underlying (e : Err)
  | dialError (e : Err)
  | subscribeError (e : Err)
  | composed (original : RErr Err) (rec : RErr Err)
deriving DecidableEq

/-- The `ReConn` struct.  `mu sync.RWMutex` is not modelled: operations are
embedded as atomic functions on the state, which is what the lock provides. -/
structure ReConn (Conn Resp Err L : Type) where
  log : Logger L
  conn : Option Conn
  errDialResp : Option Resp
  nextReconnectTime : Nat
  dialed : Bool
  url : String
  handshakeTimeout : Nat
  reconnectTimeout : Nat
  subscribeHandler : Option (Conn → Option Err)

variable {Conn Resp Err L : Type}

/-- What `r.newDialer().Dial(r.url, nil)` returns on one attempt:
`(conn, resp, err)`.  On failure the returned connection is nil (`none`). -/
structure DialResult (Conn Resp Err : Type) where
  conn : Option Conn
  resp : Option Resp
  err : Option Err

/-- Environment of one `connect` call: the clock when the routine starts, how
long the dial/subscribe phase takes, and what the dialer returns. -/
structure ConnectEnv (Conn Resp Err : Type) where
  now : Nat
  elapsed : Nat
  dial : DialResult Conn Resp Err

/-- Result of one `connect` call. -/
structure ConnectOut (Conn Resp Err L : Type) where
  state : ReConn Conn Resp Err L
  err : Option (RErr Err)
  dialerInvoked : Bool
  dialTime : Nat
  closedConns : List Conn

/-- `New()`: fresh manager, `NoopLogger`, `nextReconnectTime: time.Now()`,
everything else zero-valued. -/
def New (now : Nat) : ReConn Conn Resp Err L :=
  { log := .noop, conn := none, errDialResp := none, nextReconnectTime := now,
    dialed := false, url := "", handshakeTimeout := 0, reconnectTimeout := 0,
    subscribeHandler := none }

/-- `SetURL`: sets url. After `Dial` call it does nothing. -/
def SetURL (r : ReConn Conn Resp Err L) (url : String) : ReConn Conn Resp Err L :=
  if !r.dialed then { r with url := url } else r

/-- `SetHandshakeTimeout`: sets handshake timeout. After `Dial` call it does
nothing. -/
def SetHandshakeTimeout (r : ReConn Conn Resp Err L) (d : Nat) : ReConn Conn Resp Err L :=
  if !r.dialed then { r with handshakeTimeout := d } else r

/-- `SetReconnectTimeout`: sets reconnect timeout. After `Dial` call it does
nothing. -/
def SetReconnectTimeout (r : ReConn Conn Resp Err L) (d : Nat) : ReConn Conn Resp Err L :=
  if !r.dialed then { r with reconnectTimeout := d } else r

/-- `SetSubscribeHandler`: sets subscribe handler. After `Dial` call it does
nothing. -/
def SetSubscribeHandler (r : ReConn Conn Resp Err L) (f : Option (Conn → Option Err)) :
    ReConn Conn Resp Err L :=
  if !r.dialed then { r with subscribeHandler := f } else r

/-- `SetLogger`: sets logger, replacing nil by `NoopLogger{}`. After `Dial`
call it does nothing. -/
def SetLogger (r : ReConn Conn Resp Err L) (log : Option L) : ReConn Conn Resp Err L :=
  if !r.dialed then
    { r with log := match log with
                    | none => Logger.noop
                    | some l => Logger.custom l }
  else r

/-- `ReConn.connect`: close the previous connection if present, wait until
`nextReconnectTime`, dial, then run the subscribe handler; on any error the
deferred hook advances `nextReconnectTime = time.Now().Add(reconnectTimeout)`. -/
def connect (r : ReConn Conn Resp Err L) (env : ConnectEnv Conn Resp Err) :
    ConnectOut Conn Resp Err L :=
  -- if r.conn != nil { r.conn.Close(); r.conn = nil }
  let closed₀ : List Conn := match r.conn with
    | some c => [c]
    | none => []
  -- <-time.After(r.nextReconnectTime.Sub(time.Now()))
  let dialTime := max env.now r.nextReconnectTime
  -- time.Now() as read by the deferred error hook
  let retTime := dialTime + env.elapsed
  -- r.conn, r.errDialResp, err = r.newDialer().Dial(r.url, nil)
  let r₂ : ReConn Conn Resp Err L :=
    { r with conn := env.dial.conn, errDialResp := env.dial.resp }
  match env.dial.err with
  | some e =>
      { state := { r₂ with nextReconnectTime := retTime + r.reconnectTimeout },
        err := some (RErr.dialError e),
        dialerInvoked := true, dialTime := dialTime, closedConns := closed₀ }
  | none =>
      match r.subscribeHandler, env.dial.conn with
      | some h, some c =>
          match h c with
          | some e =>
              -- r.conn.Close() — note: r.conn is NOT reset to nil here
              { state := { r₂ with nextReconnectTime := retTime + r.reconnectTimeout },
                err := some (RErr.subscribeError e),
                dialerInvoked := true, dialTime := dialTime,
                closedConns := closed₀ ++ [c] }
          | none =>
              { state := r₂, err := none,
                dialerInvoked := true, dialTime := dialTime, closedConns := closed₀ }
      | _, _ =>
          { state := r₂, err := none,
            dialerInvoked := true, dialTime := dialTime, closedConns := closed₀ }

/-- `ReConn.Dial`: `ErrAlreadyDialed` when dialed, else mark dialed and run
`connect`. -/
def Dial (r : ReConn Conn Resp Err L) (env : ConnectEnv Conn Resp Err) :
    ConnectOut Conn Resp Err L :=
  if r.dialed then
    { state := r, err := some RErr.alreadyDialed,
      dialerInvoked := false, dialTime := env.now, closedConns := [] }
  else
    connect { r with dialed := true } env

/-- Inner `ReConn.readMessage`: `ErrNotConnected` when no connection is held,
else delegate to `r.conn.ReadMessage()`. -/
def readMessage (r : ReConn Conn Resp Err L)
    (readOf : Conn → Int × Bytes × Option Err) : Int × Bytes × Option (RErr Err) :=
  match r.conn with
  | none => (0, [], some RErr.notConnected)
  | some c =>
      match readOf c with
      | (mt, p, e) => (mt, p, e.map RErr.underlying)

/-- Result of `ReConn.ReadMessage`. -/
structure ReadOut (Conn Resp Err L : Type) where
  state : ReConn Conn Resp Err L
  messageType : Int
  data : Bytes
  err : Option (RErr Err)
  dialerInvoked : Bool

/-- `ReConn.ReadMessage`: `ErrNotDialed` guard, delegate to `readMessage`,
reconnect on failure and fold the reconnect outcome into the error. -/
def ReadMessage (r : ReConn Conn Resp Err L)
    (readOf : Conn → Int × Bytes × Option Err)
    (cenv : ConnectEnv Conn Resp Err) : ReadOut Conn Resp Err L :=
  if !r.dialed then
    { state := r, messageType := 0, data := [], err := some RErr.notDialed,
      dialerInvoked := false }
  else
    match readMessage r readOf with
    | (mt, data, none) =>
        { state := r, messageType := mt, data := data, err := none,
          dialerInvoked := false }
    | (mt, data, some readErr) =>
        let out := connect r cenv
        match out.err with
        | some recErr =>
            { state := out.state, messageType := mt, data := data,
              err := some (RErr.composed readErr recErr),
              dialerInvoked := out.dialerInvoked }
        | none =>
            { state := out.state, messageType := mt, data := data,
              err := some readErr, dialerInvoked := out.dialerInvoked }

/-- Inner `ReConn.writeMessage`: `ErrNotConnected` when no connection is held,
else delegate to `r.conn.WriteMessage(messageType, data)`. -/
def writeMessage (r : ReConn Conn Resp Err L)
    (writeOf : Conn → Int → Bytes → Option Err) (messageType : Int) (data : Bytes) :
    Option (RErr Err) :=
  match r.conn with
  | none => some RErr.notConnected
  | some c => (writeOf c messageType data).map RErr.underlying

/-- Result of `ReConn.WriteMessage`. -/
structure WriteOut (Conn Resp Err L : Type) where
  state : ReConn Conn Resp Err L
  err : Option (RErr Err)
  dialerInvoked : Bool

/-- `ReConn.WriteMessage`: `ErrNotDialed` guard, delegate to `writeMessage`,
reconnect on failure and fold the reconnect outcome into the error. -/
def WriteMessage (r : ReConn Conn Resp Err L)
    (writeOf : Conn → Int → Bytes → Option Err) (messageType : Int) (data : Bytes)
    (cenv : ConnectEnv Conn Resp Err) : WriteOut Conn Resp Err L :=
  if !r.dialed then
    { state := r, err := some RErr.notDialed, dialerInvoked := false }
  else
    match writeMessage r writeOf messageType data with
    | none => { state := r, err := none, dialerInvoked := false }
    | some writeErr =>
        let out := connect r cenv
        match out.err with
        | some recErr =>
            { state := out.state, err := some (RErr.composed writeErr recErr),
              dialerInvoked := out.dialerInvoked }
        | none =>
            { state := out.state, err := some writeErr,
              dialerInvoked := out.dialerInvoked }

/-- Result of `ReConn.Close`. -/
structure CloseOut (Conn Resp Err L : Type) where
  state : ReConn Conn Resp Err L
  err : Option (RErr Err)

/-- `ReConn.Close`: `ErrNotDialed` guard, `ErrNotConnected` when no connection
is held, else close the connection, clear the reference and return the close
error. -/
def Close (r : ReConn Conn Resp Err L) (closeOf : Conn → Option Err) :
    CloseOut Conn Resp Err L :=
  if !r.dialed then
    { state := r, err := some RErr.notDialed }
  else
    match r.conn with
    | none => { state := r, err := some RErr.notConnected }
    | some c =>
        { state := { r with conn := none }, err := (closeOf c).map RErr.underlying }

/-- Modelled from the spec: `GetDiagnosticBody` appears in the spec's exposed
surface ("Returns a defensive copy of the most recently captured dial-failure
response body") but no such accessor exists in `src/` — only the captured
field `errDialResp` does.  With the diagnostic response modelled as its body
bytes, the accessor returns a copy of the captured body (empty when nothing
was captured); in this pure value model a defensive copy is the identical
byte list. -/
def GetDiagnosticBody (r : ReConn Conn Bytes Err L) : Bytes :=
  match r.errDialResp with
  | none => []
  | some body => body.map id

/-! Helper lemmas characterising `connect` and the outer read/write wrappers. -/

/-- Fields of `connect`'s result that are the same on every branch: the dialer
is always invoked (there is no short-circuit of any kind in the routine), the
dial happens at `max now nextReconnectTime`, the connection and diagnostic
response fields are overwritten with whatever the dialer returned, and the
post-`Dial` configuration is untouched. -/
theorem connect_fields (r : ReConn Conn Resp Err L) (env : ConnectEnv Conn Resp Err) :
    (connect r env).dialerInvoked = true ∧
    (connect r env).dialTime = max env.now r.nextReconnectTime ∧
    (connect r env).state.conn = env.dial.conn ∧
    (connect r env).state.errDialResp = env.dial.resp ∧
    (connect r env).state.dialed = r.dialed ∧
    (connect r env).state.reconnectTimeout = r.reconnectTimeout := by
  unfold connect
  rcases henv : env.dial.err with _ | e
  · rcases hs : r.subscribeHandler with _ | h <;>
      rcases hc : env.dial.conn with _ | c <;>
        simp [henv, hs, hc]
    rcases hsc : h c with _ | e' <;> simp [hsc]
  · simp [henv]

/-- `nextReconnectTime` after `connect`: untouched on success, set by the
deferred hook to `time.Now() + reconnectTimeout` on failure (where the
routine returns at `dialTime + elapsed`). -/
theorem connect_nrt_cases (r : ReConn Conn Resp Err L) (env : ConnectEnv Conn Resp Err) :
    ((connect r env).err = none ∧
      (connect r env).state.nextReconnectTime = r.nextReconnectTime) ∨
    ((connect r env).err ≠ none ∧
      (connect r env).state.nextReconnectTime =
        max env.now r.nextReconnectTime + env.elapsed + r.reconnectTimeout) := by
  unfold connect
  rcases henv : env.dial.err with _ | e
  · rcases hs : r.subscribeHandler with _ | h <;>
      rcases hc : env.dial.conn with _ | c <;>
        simp [henv, hs, hc]
    rcases hsc : h c with _ | e' <;> simp [hsc]
  · simp [henv]

/-- On a failed `connect` the retry clock is pushed to
`failure time + reconnectTimeout`. -/
theorem connect_nrt_of_fail (r : ReConn Conn Resp Err L) (env : ConnectEnv Conn Resp Err)
    (h : (connect r env).err ≠ none) :
    (connect r env).state.nextReconnectTime =
      max env.now r.nextReconnectTime + env.elapsed + r.reconnectTimeout := by
  rcases connect_nrt_cases r env with ⟨h₀, _⟩ | ⟨_, h₁⟩
  · exact absurd h₀ h
  · exact h₁

/-- On a successful `connect` the retry clock is untouched. -/
theorem connect_nrt_of_succ (r : ReConn Conn Resp Err L) (env : ConnectEnv Conn Resp Err)
    (h : (connect r env).err = none) :
    (connect r env).state.nextReconnectTime = r.nextReconnectTime := by
  rcases connect_nrt_cases r env with ⟨_, h₁⟩ | ⟨h₀, _⟩
  · exact h₁
  · exact absurd h h₀

/-- `connect` never moves the retry clock backwards. -/
theorem connect_nrt_mono (r : ReConn Conn Resp Err L) (env : ConnectEnv Conn Resp Err) :
    r.nextReconnectTime ≤ (connect r env).state.nextReconnectTime := by
  rcases connect_nrt_cases r env with ⟨_, h₁⟩ | ⟨_, h₁⟩ <;> omega

/-- Behaviour of `ReadMessage` when the inner delegation fails: the values of
the failed read are passed through, the state is whatever the reconnect left,
and the error is folded per the reconnect outcome. -/
theorem ReadMessage_of_fail (r : ReConn Conn Resp Err L)
    (readOf : Conn → Int × Bytes × Option Err) (cenv : ConnectEnv Conn Resp Err)
    (mt : Int) (d : Bytes) (re : RErr Err)
    (hd : r.dialed = true)
    (hrm : readMessage r readOf = (mt, d, some re)) :
    (ReadMessage r readOf cenv).messageType = mt ∧
    (ReadMessage r readOf cenv).data = d ∧
    (ReadMessage r readOf cenv).state = (connect r cenv).state ∧
    (ReadMessage r readOf cenv).dialerInvoked = (connect r cenv).dialerInvoked ∧
    (ReadMessage r readOf cenv).err =
      (match (connect r cenv).err with
       | some recErr => some (RErr.composed re recErr)
       | none => some re) := by
  unfold ReadMessage
  rw [hd, hrm]
  rcases h : (connect r cenv).err with _ | recErr <;> simp [h]

/-- Behaviour of `WriteMessage` when the inner delegation fails. -/
theorem WriteMessage_of_fail (r : ReConn Conn Resp Err L)
    (writeOf : Conn → Int → Bytes → Option Err) (cenv : ConnectEnv Conn Resp Err)
    (mt : Int) (d : Bytes) (we : RErr Err)
    (hd : r.dialed = true)
    (hwm : writeMessage r writeOf mt d = some we) :
    (WriteMessage r writeOf mt d cenv).state = (connect r cenv).state ∧
    (WriteMessage r writeOf mt d cenv).dialerInvoked = (connect r cenv).dialerInvoked ∧
    (WriteMessage r writeOf mt d cenv).err =
      (match (connect r cenv).err with
       | some recErr => some (RErr.composed we recErr)
       | none => some we) := by
  unfold WriteMessage
  rw [hd, hwm]
  rcases h : (connect r cenv).err with _ | recErr <;> simp [h]

/-- `ReadMessage` either leaves the state alone (guard hit or successful read)
or hands back exactly the state the reconnect produced. -/
theorem ReadMessage_state_cases (r : ReConn Conn Resp Err L)
    (readOf : Conn → Int × Bytes × Option Err) (cenv : ConnectEnv Conn Resp Err) :
    (ReadMessage r readOf cenv).state = r ∨
    (ReadMessage r readOf cenv).state = (connect r cenv).state := by
  unfold ReadMessage
  rcases hd : r.dialed
  · simp [hd]
  · rcases hrm : readMessage r readOf with ⟨mt, d, _ | re⟩
    · simp [hd, hrm]
    · rcases h : (connect r cenv).err with _ | recErr <;> simp [hd, hrm, h]

/-- `WriteMessage` either leaves the state alone or hands back the reconnect
state. -/
theorem WriteMessage_state_cases (r : ReConn Conn Resp Err L)
    (writeOf : Conn → Int → Bytes → Option Err) (mt : Int) (d : Bytes)
    (cenv : ConnectEnv Conn Resp Err) :
    (WriteMessage r writeOf mt d cenv).state = r ∨
    (WriteMessage r writeOf mt d cenv).state = (connect r cenv).state := by
  unfold WriteMessage
  rcases hd : r.dialed
  · simp [hd]
  · rcases hwm : writeMessage r writeOf mt d with _ | we
    · simp [hd, hwm]
    · rcases h : (connect r cenv).err with _ | recErr <;> simp [hd, hwm, h]

/-! Concrete fixtures used by the witness and counterexample theorems.
Connections are numbered handles, collaborator errors are numbers, the
diagnostic response is its body byte list, custom loggers are numbers. -/

/-- A dialed manager currently holding connection `1`. -/
def exDialed : ReConn Nat Bytes Nat Nat :=
  { log := Logger.noop, conn := some 1, errDialResp := none, nextReconnectTime := 3,
    dialed := true, url := "ws://example", handshakeTimeout := 1, reconnectTimeout := 10,
    subscribeHandler := none }

/-- The state `exDialed` reaches after `Close()`: still dialed, no socket. -/
def exClosed : ReConn Nat Bytes Nat Nat :=
  { exDialed with conn := none }

/-- The dialed manager with a subscribe handler that always fails with `9`. -/
def exSub : ReConn Nat Bytes Nat Nat :=
  { exDialed with subscribeHandler := some (fun _ => some 9) }

/-- A freshly constructed, never-dialed manager. -/
def exNotDialed : ReConn Nat Bytes Nat Nat := New 0

/-- A dial attempt that succeeds, producing connection `7`, no response. -/
def envOk : ConnectEnv Nat Bytes Nat :=
  { now := 5, elapsed := 2, dial := { conn := some 7, resp := none, err := none } }

/-- A dial attempt that fails with error `0` and diagnostic body `[3, 4]`. -/
def envFail : ConnectEnv Nat Bytes Nat :=
  { now := 5, elapsed := 2, dial := { conn := none, resp := some [3, 4], err := some 0 } }

/-- A socket whose reads always fail with error `4`, returning type `2` and
payload `[9]` alongside. -/
def readFail : Nat → Int × Bytes × Option Nat := fun _ => (2, [9], some 4)

/-- A socket whose writes always fail with error `6`. -/
def writeFail : Nat → Int → Bytes → Option Nat := fun _ _ _ => some 6

/-! Claim theorems. -/

/-- Claim C1, counterexample: in the post-`Close()` state (dialed, no socket)
the connect routine does NOT return a "closed" signal without invoking the
Dialer — it invokes the Dialer, and a Read whose delegation failed in that
state gets a composed error (reconnect failure layered on top of the original
`ErrNotConnected`), contradicting the claim at this concrete input. -/
theorem c1_cex :
    (connect exClosed envFail).dialerInvoked = true ∧
    (ReadMessage exClosed readFail envFail).err =
      some (RErr.composed RErr.notConnected (RErr.dialError 0)) :=
  ⟨rfl, rfl⟩

/-- Claim C1, amended: the connect routine has no "closed" short-circuit.  On
a Manager on which `Close()` has completed (dialed but no socket), a
subsequent run of the connect routine always invokes the Dialer; a Read or
Write whose delegation failed in that state surfaces only its original
`ErrNotConnected` error when the reconnect succeeds, and a composed error
carrying the reconnect failure when it fails. -/
theorem c1_close_no_shortcircuit (r : ReConn Conn Resp Err L)
    (env : ConnectEnv Conn Resp Err)
    (readOf : Conn → Int × Bytes × Option Err)
    (writeOf : Conn → Int → Bytes → Option Err) (mt : Int) (d : Bytes)
    (hd : r.dialed = true) (hc : r.conn = none) :
    (connect r env).dialerInvoked = true ∧
    ((connect r env).err = none →
        (ReadMessage r readOf env).err = some RErr.notConnected ∧
        (WriteMessage r writeOf mt d env).err = some RErr.notConnected) ∧
    (∀ recErr, (connect r env).err = some recErr →
        (ReadMessage r readOf env).err =
          some (RErr.composed RErr.notConnected recErr) ∧
        (WriteMessage r writeOf mt d env).err =
          some (RErr.composed RErr.notConnected recErr)) := by
  have hrm : readMessage r readOf = (0, [], some RErr.notConnected) := by
    simp [readMessage, hc]
  have hwm : writeMessage r writeOf mt d = some RErr.notConnected := by
    simp [writeMessage, hc]
  have hr := ReadMessage_of_fail r readOf env 0 [] RErr.notConnected hd hrm
  have hw := WriteMessage_of_fail r writeOf env mt d RErr.notConnected hd hwm
  refine ⟨(connect_fields r env).1, ?_, ?_⟩
  · intro h
    rw [hr.2.2.2.2, hw.2.2, h]
    exact ⟨rfl, rfl⟩
  · intro recErr h
    rw [hr.2.2.2.2, hw.2.2, h]
    exact ⟨rfl, rfl⟩

/-- Claim C1, witness: concrete closed-state manager whose reconnect
succeeds: the Dialer is invoked and the original error comes back alone. -/
theorem c1_witness :
    (connect exClosed envOk).dialerInvoked = true ∧
    (ReadMessage exClosed readFail envOk).err = some RErr.notConnected ∧
    (WriteMessage exClosed writeFail 2 [9] envOk).err = some RErr.notConnected :=
  ⟨(c1_close_no_shortcircuit exClosed envOk readFail writeFail 2 [9] rfl rfl).1,
   (c1_close_no_shortcircuit exClosed envOk readFail writeFail 2 [9] rfl rfl).2.1 rfl⟩

/-- Claim C2: on a dialed Manager whose read or write delegation fails, if the
reconnect succeeds the operation returns the original delegation error
(uncomposed) and the Manager's socket is the newly dialed one. -/
theorem c2_reconnect_success_returns_original
    (r : ReConn Conn Resp Err L) (env : ConnectEnv Conn Resp Err)
    (readOf : Conn → Int × Bytes × Option Err)
    (writeOf : Conn → Int → Bytes → Option Err)
    (c newConn : Conn) (mt : Int) (d : Bytes) (e e' : Err)
    (hd : r.dialed = true) (hc : r.conn = some c)
    (hread : readOf c = (mt, d, some e))
    (hwrite : writeOf c mt d = some e')
    (hsucc : (connect r env).err = none)
    (hnew : env.dial.conn = some newConn) :
    ((ReadMessage r readOf env).err = some (RErr.underlying e) ∧
     (ReadMessage r readOf env).state.conn = some newConn) ∧
    ((WriteMessage r writeOf mt d env).err = some (RErr.underlying e') ∧
     (WriteMessage r writeOf mt d env).state.conn = some newConn) := by
  have hrm : readMessage r readOf = (mt, d, some (RErr.underlying e)) := by
    simp [readMessage, hc, hread]
  have hwm : writeMessage r writeOf mt d = some (RErr.underlying e') := by
    simp [writeMessage, hc, hwrite]
  have hr := ReadMessage_of_fail r readOf env mt d (RErr.underlying e) hd hrm
  have hw := WriteMessage_of_fail r writeOf env mt d (RErr.underlying e') hd hwm
  have hconn := (connect_fields r env).2.2.1
  refine ⟨⟨?_, ?_⟩, ?_, ?_⟩
  · rw [hr.2.2.2.2, hsucc]
  · rw [hr.2.2.1, hconn, hnew]
  · rw [hw.2.2, hsucc]
  · rw [hw.1, hconn, hnew]

/-- Claim C2, witness: read fails on connection `1` with error `4`, write with
error `6`; the reconnect dials connection `7` successfully, each operation
returns its original error and the state holds connection `7`. -/
theorem c2_witness :
    ((ReadMessage exDialed readFail envOk).err = some (RErr.underlying 4) ∧
     (ReadMessage exDialed readFail envOk).state.conn = some 7) ∧
    ((WriteMessage exDialed writeFail 2 [9] envOk).err = some (RErr.underlying 6) ∧
     (WriteMessage exDialed writeFail 2 [9] envOk).state.conn = some 7) :=
  c2_reconnect_success_returns_original exDialed envOk readFail writeFail
    1 7 2 [9] 4 6 rfl rfl rfl rfl rfl rfl

/-- Claim C3: on a dialed Manager whose read or write delegation fails, if the
reconnect routine also fails, the operation returns a composed error carrying
both the original delegation error and the reconnect failure. -/
theorem c3_reconnect_failure_composes
    (r : ReConn Conn Resp Err L) (env : ConnectEnv Conn Resp Err)
    (readOf : Conn → Int × Bytes × Option Err)
    (writeOf : Conn → Int → Bytes → Option Err)
    (c : Conn) (mt : Int) (d : Bytes) (e e' : Err) (recErr : RErr Err)
    (hd : r.dialed = true) (hc : r.conn = some c)
    (hread : readOf c = (mt, d, some e))
    (hwrite : writeOf c mt d = some e')
    (hfail : (connect r env).err = some recErr) :
    (ReadMessage r readOf env).err =
      some (RErr.composed (RErr.underlying e) recErr) ∧
    (WriteMessage r writeOf mt d env).err =
      some (RErr.composed (RErr.underlying e') recErr) := by
  have hrm : readMessage r readOf = (mt, d, some (RErr.underlying e)) := by
    simp [readMessage, hc, hread]
  have hwm : writeMessage r writeOf mt d = some (RErr.underlying e') := by
    simp [writeMessage, hc, hwrite]
  have hr := ReadMessage_of_fail r readOf env mt d (RErr.underlying e) hd hrm
  have hw := WriteMessage_of_fail r writeOf env mt d (RErr.underlying e') hd hwm
  refine ⟨?_, ?_⟩
  · rw [hr.2.2.2.2, hfail]
  · rw [hw.2.2, hfail]

/-- Claim C3, witness: read error `4` and write error `6` on connection `1`
with a failing dial (`DialError 0`) compose into a two-cause error. -/
theorem c3_witness :
    (ReadMessage exDialed readFail envFail).err =
      some (RErr.composed (RErr.underlying 4) (RErr.dialError 0)) ∧
    (WriteMessage exDialed writeFail 2 [9] envFail).err =
      some (RErr.composed (RErr.underlying 6) (RErr.dialError 0)) :=
  c3_reconnect_failure_composes exDialed envFail readFail writeFail
    1 2 [9] 4 6 (RErr.dialError 0) rfl rfl rfl rfl rfl

/-- Claim C4, counterexample: when the dial succeeds and the subscribe handler
fails, the routine fails with `SubscribeError` but the Manager's socket is NOT
nil — it still references the just-closed new connection `7`, contradicting
the claim's "leaves the Manager with socket == nil" at this concrete input. -/
theorem c4_cex :
    (connect exSub envOk).err = some (RErr.subscribeError 9) ∧
    (connect exSub envOk).state.conn = some 7 :=
  ⟨rfl, rfl⟩

/-- Claim C4, amended: when the dial succeeds but the configured subscribe
handler returns an error, the connect routine closes the just-opened socket,
advances `nextReconnectTime` by the reconnect interval, and fails with
`SubscribeError` wrapping the handler's cause — but it leaves the Manager's
socket still set to the (closed) new connection rather than nil, because the
source closes `r.conn` without clearing the reference on this path. -/
theorem c4_subscribe_failure_state
    (r : ReConn Conn Resp Err L) (env : ConnectEnv Conn Resp Err)
    (c : Conn) (h : Conn → Option Err) (e : Err)
    (hh : r.subscribeHandler = some h)
    (hdial : env.dial.err = none) (hconn : env.dial.conn = some c)
    (hsub : h c = some e) :
    c ∈ (connect r env).closedConns ∧
    (connect r env).state.nextReconnectTime =
      max env.now r.nextReconnectTime + env.elapsed + r.reconnectTimeout ∧
    (connect r env).err = some (RErr.subscribeError e) ∧
    (connect r env).state.conn = some c := by
  unfold connect
  simp [hh, hdial, hconn, hsub]

/-- Claim C4, witness: concrete dial success (connection `7`) with subscribe
failure `9`. -/
theorem c4_witness :
    7 ∈ (connect exSub envOk).closedConns ∧
    (connect exSub envOk).state.nextReconnectTime = max 5 3 + 2 + 10 ∧
    (connect exSub envOk).err = some (RErr.subscribeError 9) ∧
    (connect exSub envOk).state.conn = some 7 :=
  c4_subscribe_failure_state exSub envOk 7 (fun _ => some 9) 9 rfl rfl rfl rfl

/-- Claim C5: the diagnostic capture is overwritten on every dial attempt with
whatever the dialer returned, regardless of dial outcome (the first conjunct
holds with no hypothesis on the outcome), and `GetDiagnosticBody` returns a
copy of the most recently captured dial-failure response body. -/
theorem c5_diagnostic_capture (r : ReConn Conn Bytes Err L)
    (env : ConnectEnv Conn Bytes Err) (b : Bytes)
    (hresp : env.dial.resp = some b) :
    (connect r env).state.errDialResp = env.dial.resp ∧
    GetDiagnosticBody (connect r env).state = b := by
  have h := (connect_fields r env).2.2.2.1
  refine ⟨h, ?_⟩
  unfold GetDiagnosticBody
  rw [h, hresp]
  simp

/-- Claim C5, witness: a failed dial surfacing diagnostic body `[3, 4]` is
captured and read back by the accessor. -/
theorem c5_witness :
    (connect exDialed envFail).state.errDialResp = envFail.dial.resp ∧
    GetDiagnosticBody (connect exDialed envFail).state = [3, 4] :=
  c5_diagnostic_capture exDialed envFail [3, 4] rfl

/-- Claim C6: after a failed connect attempt, any subsequent dial attempt
starts no earlier than `reconnectTimeout` after the first attempt's failure
time (`dial time + elapsed`): the debounce wait blocks until
`nextReconnectTime` has elapsed before the dialer is invoked. -/
theorem c6_min_dial_spacing (r : ReConn Conn Resp Err L)
    (env₁ env₂ : ConnectEnv Conn Resp Err)
    (hfail : (connect r env₁).err ≠ none) :
    max env₁.now r.nextReconnectTime + env₁.elapsed + r.reconnectTimeout ≤
      (connect (connect r env₁).state env₂).dialTime := by
  have h₁ := connect_nrt_of_fail r env₁ hfail
  have h₂ := (connect_fields (connect r env₁).state env₂).2.1
  rw [h₂, ← h₁]
  exact Nat.le_max_right _ _

/-- Claim C6, witness: first attempt fails at time `max 5 3 + 2 = 7`; the
second dial attempt starts no earlier than `7 + 10`. -/
theorem c6_witness :
    max 5 3 + 2 + 10 ≤ (connect (connect exDialed envFail).state envOk).dialTime :=
  c6_min_dial_spacing exDialed envFail envOk (by decide)

/-- Claim C7: `nextReconnectTime` is non-decreasing under the connect routine
(and under the read/write wrappers and `Close`), is left untouched by a
successful connect, and is advanced to `failure time + reconnectTimeout`
exactly on the failure paths of the connect routine. -/
theorem c7_nextReconnectTime_discipline (r : ReConn Conn Resp Err L) :
    (∀ env, r.nextReconnectTime ≤ (connect r env).state.nextReconnectTime) ∧
    (∀ env, (connect r env).err = none →
        (connect r env).state.nextReconnectTime = r.nextReconnectTime) ∧
    (∀ env, (connect r env).err ≠ none →
        (connect r env).state.nextReconnectTime =
          max env.now r.nextReconnectTime + env.elapsed + r.reconnectTimeout) ∧
    (∀ closeOf, (Close r closeOf).state.nextReconnectTime = r.nextReconnectTime) ∧
    (∀ readOf cenv,
        r.nextReconnectTime ≤ (ReadMessage r readOf cenv).state.nextReconnectTime) ∧
    (∀ writeOf mt d cenv,
        r.nextReconnectTime ≤
          (WriteMessage r writeOf mt d cenv).state.nextReconnectTime) := by
  refine ⟨connect_nrt_mono r, connect_nrt_of_succ r, connect_nrt_of_fail r,
    ?_, ?_, ?_⟩
  · intro closeOf
    unfold Close
    rcases hd : r.dialed
    · simp [hd]
    · rcases hc : r.conn with _ | c <;> simp [hd, hc]
  · intro readOf cenv
    rcases ReadMessage_state_cases r readOf cenv with h | h
    · rw [h]
    · rw [h]
      exact connect_nrt_mono r cenv
  · intro writeOf mt d cenv
    rcases WriteMessage_state_cases r writeOf mt d cenv with h | h
    · rw [h]
    · rw [h]
      exact connect_nrt_mono r cenv

/-- Claim C7, witness: a concrete failing connect pushes the retry clock to
failure time plus the reconnect interval. -/
theorem c7_witness :
    (connect exDialed envFail).state.nextReconnectTime = max 5 3 + 2 + 10 :=
  (c7_nextReconnectTime_discipline exDialed).2.2.1 envFail (by decide)

/-- Claim C8: configuration-misuse errors are immediate and never dial: on a
never-dialed Manager, `ReadMessage` and `WriteMessage` fail with
`ErrNotDialed` without touching the Dialer or the state; on a dialed Manager,
`Dial` fails with `ErrAlreadyDialed`, leaving the state untouched and the
Dialer uninvoked. -/
theorem c8_misuse_immediate (r : ReConn Conn Resp Err L) :
    (r.dialed = false →
      (∀ readOf cenv,
          (ReadMessage r readOf cenv).err = some RErr.notDialed ∧
          (ReadMessage r readOf cenv).dialerInvoked = false ∧
          (ReadMessage r readOf cenv).state = r) ∧
      (∀ writeOf mt d cenv,
          (WriteMessage r writeOf mt d cenv).err = some RErr.notDialed ∧
          (WriteMessage r writeOf mt d cenv).dialerInvoked = false ∧
          (WriteMessage r writeOf mt d cenv).state = r)) ∧
    (r.dialed = true →
      ∀ env, (Dial r env).err = some RErr.alreadyDialed ∧
        (Dial r env).dialerInvoked = false ∧
        (Dial r env).state = r) := by
  refine ⟨fun hd => ⟨fun readOf cenv => ?_, fun writeOf mt d cenv => ?_⟩,
    fun hd env => ?_⟩
  · unfold ReadMessage
    simp [hd]
  · unfold WriteMessage
    simp [hd]
  · unfold Dial
    simp [hd]

/-- Claim C8, witness: a fresh manager rejects reads with `ErrNotDialed`
without dialing; a dialed manager rejects a second `Dial` with
`ErrAlreadyDialed`, untouched. -/
theorem c8_witness :
    ((ReadMessage exNotDialed readFail envOk).err = some RErr.notDialed ∧
     (ReadMessage exNotDialed readFail envOk).dialerInvoked = false ∧
     (ReadMessage exNotDialed readFail envOk).state = exNotDialed) ∧
    ((Dial exDialed envOk).err = some RErr.alreadyDialed ∧
     (Dial exDialed envOk).dialerInvoked = false ∧
     (Dial exDialed envOk).state = exDialed) :=
  ⟨((c8_misuse_immediate exNotDialed).1 rfl).1 readFail envOk,
   (c8_misuse_immediate exDialed).2 rfl envOk⟩

/-- Claim C9: after `Dial` every configuration setter is a no-op returning the
Manager unchanged; before `Dial` each setter updates exactly its own field
(`SetLogger` installing the no-op logger when passed nil). -/
theorem c9_setters_frozen_after_dial (r : ReConn Conn Resp Err L) :
    (r.dialed = true →
      (∀ u, SetURL r u = r) ∧
      (∀ d, SetHandshakeTimeout r d = r) ∧
      (∀ d, SetReconnectTimeout r d = r) ∧
      (∀ f, SetSubscribeHandler r f = r) ∧
      (∀ l, SetLogger r l = r)) ∧
    (r.dialed = false →
      (∀ u, SetURL r u = { r with url := u }) ∧
      (∀ d, SetHandshakeTimeout r d = { r with handshakeTimeout := d }) ∧
      (∀ d, SetReconnectTimeout r d = { r with reconnectTimeout := d }) ∧
      (∀ f, SetSubscribeHandler r f = { r with subscribeHandler := f }) ∧
      (∀ l, SetLogger r (some l) = { r with log := Logger.custom l }) ∧
      SetLogger r none = { r with log := Logger.noop }) := by
  refine ⟨fun hd => ⟨fun u => ?_, fun d => ?_, fun d => ?_, fun f => ?_, fun l => ?_⟩,
    fun hd => ⟨fun u => ?_, fun d => ?_, fun d => ?_, fun f => ?_, fun l => ?_, ?_⟩⟩ <;>
    simp [SetURL, SetHandshakeTimeout, SetReconnectTimeout, SetSubscribeHandler,
      SetLogger, hd]

/-- Claim C9, witness: a dialed manager ignores `SetURL`; an undialed one
updates exactly the url field. -/
theorem c9_witness :
    SetURL exDialed "other" = exDialed ∧
    SetURL exNotDialed "other" = { exNotDialed with url := "other" } :=
  ⟨((c9_setters_frozen_after_dial exDialed).1 rfl).1 "other",
   ((c9_setters_frozen_after_dial exNotDialed).2 rfl).1 "other"⟩

/-- Claim C10: when the underlying socket's read fails, `ReadMessage` passes
the failed read's message type and data through to the caller unchanged,
whatever the reconnect outcome. -/
theorem c10_read_values_preserved (r : ReConn Conn Resp Err L)
    (env : ConnectEnv Conn Resp Err) (readOf : Conn → Int × Bytes × Option Err)
    (c : Conn) (mt : Int) (d : Bytes) (e : Err)
    (hd : r.dialed = true) (hc : r.conn = some c)
    (hread : readOf c = (mt, d, some e)) :
    (ReadMessage r readOf env).messageType = mt ∧
    (ReadMessage r readOf env).data = d := by
  have hrm : readMessage r readOf = (mt, d, some (RErr.underlying e)) := by
    simp [readMessage, hc, hread]
  have hr := ReadMessage_of_fail r readOf env mt d (RErr.underlying e) hd hrm
  exact ⟨hr.1, hr.2.1⟩

/-- Claim C10, witness: the failed read's type `2` and payload `[9]` survive a
failed reconnect. -/
theorem c10_witness :
    (ReadMessage exDialed readFail envFail).messageType = 2 ∧
    (ReadMessage exDialed readFail envFail).data = [9] :=
  c10_read_values_preserved exDialed envFail readFail 1 2 [9] 4 rfl rfl rfl

end Reconnect
